import Mathlib

/-!
Verification development for the `ultra-system-cleaner` repository.

Shallow embedding of the core routines:
- `src/lib/cleaner.js`   (the second class in the file, the one wired to the
  security and analytics managers): `getFolderSize`, `cleanPath`, the `run`
  target loop.
- `src/lib/config-manager.js`: `ConfigManager.matchesPattern`,
  `ConfigManager.shouldExcludePath`, `SecurityManager.createBackup`,
  `SecurityManager.restoreBackup`.
- `lib/analytics-manager.js` (src/unnamed/part_001):
  `AnalyticsManager.calculateTrends`.

The filesystem is modelled as a finite tree of named nodes.  Each node carries
an `accessible` flag modelling whether the filesystem calls issued on it
(`readdir`, `stat`, `access`) succeed; JavaScript exceptions swallowed by
`try`/`catch` in the source become the corresponding no-op branches here.
Byte sizes and counters are `Nat` (the source only ever adds non-negative
file sizes, far below any floating-point precision boundary relevant here).
-/

/-! ## Filesystem model -/

/-- A filesystem node: a regular file with a size, or a directory with named
children.  The `accessible` flag models whether `readdir` / `stat` / `access`
succeed on this node (permission errors in the source are caught and turned
into skips). -/
inductive FSNode where
  | file (size : Nat) (accessible : Bool)
  | dir (accessible : Bool) (children : List (String × FSNode))

/-- A path is a list of name segments. -/
abbrev FSPath := List String

/-- Whether `readdir` / `stat` / `access` succeed on a node. -/
def FSNode.accessibleFlag : FSNode → Bool
  | FSNode.file _ a => a
  | FSNode.dir a _ => a

/-- Find a child by name in a directory listing. -/
def lookupChild : List (String × FSNode) → String → Option FSNode
  | [], _ => none
  | (n, c) :: rest, name => if n = name then some c else lookupChild rest name

/-- Resolve a path to a node, if it exists. -/
def lookup : FSNode → FSPath → Option FSNode
  | node, [] => some node
  | FSNode.file _ _, _ :: _ => none
  | FSNode.dir _ cs, n :: rest =>
      match lookupChild cs n with
      | none => none
      | some c => lookup c rest

/-- Replace the child with the given name (used to model deletion followed by
`mkdir` at the same path). -/
def setChild : List (String × FSNode) → String → FSNode → List (String × FSNode)
  | [], _, _ => []
  | (n, c) :: rest, name, new =>
      if n = name then (n, new) :: rest else (n, c) :: setChild rest name new

/-- Replace the subtree at a path (a no-op when the path does not exist). -/
def setNode : FSNode → FSPath → FSNode → FSNode
  | _, [], new => new
  | FSNode.file sz a, _ :: _, _ => FSNode.file sz a
  | FSNode.dir a cs, n :: rest, new =>
      match lookupChild cs n with
      | none => FSNode.dir a cs
      | some c => FSNode.dir a (setChild cs n (setNode c rest new))

/-! ## Size/Count Accountant — `UltraSystemCleaner.getFolderSize`

The source (`cleaner.js`, lines 419-470) walks the tree with the closure
variables `totalSize` / `fileCount` shared between all recursive calls.
`calculateRecursive` returns the *running totals*, and the caller then adds
the returned totals on top (`totalSize += subResult.size`).  The embedding
threads the shared state explicitly and reproduces that addition verbatim:
after a recursive call on a subdirectory the state becomes the returned state
added to itself. -/

mutual

/-- State transformer of `calculateRecursive` on one node: given the shared
`(totalSize, fileCount)` state at call time, returns the state at return time
(which is also the JS return value `{size: totalSize, count: fileCount}`).
`readdir` on a file or on an inaccessible directory throws and is caught,
leaving the state unchanged. -/
def calcRec : FSNode → Nat × Nat → Nat × Nat
  | FSNode.file _ _, s => s
  | FSNode.dir acc cs, s => if acc then calcChildren cs s else s

/-- The `for (const item of items)` loop body of `calculateRecursive`.
For a file entry, `fs.stat` adds `(size, 1)` to the shared state when it
succeeds and is a caught no-op otherwise.  For a directory entry, the
recursive call already updated the shared state to `s'`, and the caller then
performs `totalSize += subResult.size; fileCount += subResult.count` where
`subResult` equals `s'` — doubling the accumulated totals. -/
def calcChildren : List (String × FSNode) → Nat × Nat → Nat × Nat
  | [], s => s
  | (_, FSNode.file sz facc) :: rest, s =>
      calcChildren rest (if facc then (s.1 + sz, s.2 + 1) else s)
  | (_, FSNode.dir dacc dcs) :: rest, s =>
      calcChildren rest
        ((calcRec (FSNode.dir dacc dcs) s).1 + (calcRec (FSNode.dir dacc dcs) s).1,
         (calcRec (FSNode.dir dacc dcs) s).2 + (calcRec (FSNode.dir dacc dcs) s).2)

end

/-- `UltraSystemCleaner.getFolderSize`: run `calculateRecursive` from the
zero state on the target path.  A non-existent path makes the first `readdir`
throw `ENOENT`, which the inner `catch` swallows, returning the zero totals. -/
def getFolderSize (root : FSNode) (folderPath : FSPath) : Nat × Nat :=
  match lookup root folderPath with
  | none => (0, 0)
  | some node => calcRec node (0, 0)

mutual

/-- Specification-side measure: the sum of the sizes of all regular files in
the subtree, each counted once (the quantity claim C4 compares against). -/
def totalFileSize : FSNode → Nat
  | FSNode.file sz _ => sz
  | FSNode.dir _ cs => totalFileSizeList cs

/-- Sum of `totalFileSize` over a directory listing. -/
def totalFileSizeList : List (String × FSNode) → Nat
  | [] => 0
  | (_, c) :: rest => totalFileSize c + totalFileSizeList rest

end

mutual

/-- Specification-side measure: the number of regular files in the subtree. -/
def totalFileCount : FSNode → Nat
  | FSNode.file _ _ => 1
  | FSNode.dir _ cs => totalFileCountList cs

/-- Count of regular files over a directory listing. -/
def totalFileCountList : List (String × FSNode) → Nat
  | [] => 0
  | (_, c) :: rest => totalFileCount c + totalFileCountList rest

end

/-! ## Deletion Executor — `UltraSystemCleaner.cleanPath`

`cleaner.js`, lines 473-584.  Spinner/log/analytics output does not affect
the claims' observables and is not modelled; the `backupsRequested` field
records the targets for which `SecurityManager.createBackup` was invoked.
`rimraf` followed by the tolerated `fs.mkdir` is modelled by replacing the
subtree with an empty accessible directory. -/

/-- Process-wide statistics counters (`this.stats`; `startTime` carries no
claim-relevant information and is omitted). -/
structure Stats where
  totalCleaned : Nat
  totalFiles : Nat
  areasProcessed : Nat

/-- The two option flags consulted by `cleanPath`. -/
structure CleanOptions where
  dryRun : Bool
  enableBackup : Bool

/-- Everything observable about one `cleanPath` call. -/
structure CleanOutcome where
  fs : FSNode
  stats : Stats
  result : Nat × Nat
  backupsRequested : List FSPath

/-- `SecurityManager.validateOperation` (config-manager.js, lines 520-556):
`fs.access` existence check plus an R/W permission check; system-path
detection only warns and never changes the outcome. -/
def validateOperation (root : FSNode) (targetPath : FSPath) : Bool :=
  match lookup root targetPath with
  | none => false
  | some node => node.accessibleFlag

/-- `UltraSystemCleaner.cleanPath`: validate, check existence, measure,
return early on a zero measured size, request a backup when enabled and not
in dry-run, then either record statistics only (dry run) or delete,
recreate an empty directory and record statistics. -/
def cleanPath (opts : CleanOptions) (fs : FSNode) (stats : Stats)
    (targetPath : FSPath) : CleanOutcome :=
  if validateOperation fs targetPath = false then
    ⟨fs, stats, (0, 0), []⟩
  else if (lookup fs targetPath).isNone then
    ⟨fs, stats, (0, 0), []⟩
  else
    let m := getFolderSize fs targetPath
    if m.1 = 0 then
      ⟨fs, stats, (0, 0), []⟩
    else
      let req := if opts.enableBackup && !opts.dryRun then [targetPath] else []
      if opts.dryRun then
        ⟨fs, ⟨stats.totalCleaned + m.1, stats.totalFiles + m.2,
              stats.areasProcessed + 1⟩, m, req⟩
      else
        ⟨setNode fs targetPath (FSNode.dir true []),
         ⟨stats.totalCleaned + m.1, stats.totalFiles + m.2,
          stats.areasProcessed + 1⟩, m, req⟩

/-- The target loop of `UltraSystemCleaner.run` (cleaner.js, lines 727-735):
each target is handed to `cleanPath` in order, unconditionally — no exclusion
filter is consulted anywhere on the way. -/
def runTargets (opts : CleanOptions) : FSNode → Stats → List FSPath → FSNode × Stats
  | fs, stats, [] => (fs, stats)
  | fs, stats, p :: rest =>
      runTargets opts (cleanPath opts fs stats p).fs (cleanPath opts fs stats p).stats rest

example :
    getFolderSize (FSNode.dir true [("sub", FSNode.dir true [("f", FSNode.file 10 true)])]) []
      = (20, 2) := by decide

example :
    getFolderSize (FSNode.dir true [("a", FSNode.file 5 true), ("b", FSNode.file 7 true)]) []
      = (12, 2) := by decide

example :
    getFolderSize (FSNode.dir true [("a", FSNode.file 5 true),
      ("s", FSNode.dir false [])]) [] = (10, 2) := by decide

/-! ## Exclusion Matcher — `ConfigManager.matchesPattern`

`config-manager.js`, lines 167-187.  The source turns the pattern into a
regular expression by four global string replacements and then runs the
unanchored, case-insensitive `RegExp.test`:

1. escape each of `. + ^ $ \x7b \x7d ( ) | \` with a backslash;
2. replace `**` with `.*`;
3. replace every `*` with `[^/]*` — note that this also rewrites the `*`
   that step 2 just inserted, so `**` ends up compiled as `.[^/]*`;
4. replace every `?` with `[^/]`.

The resulting expression only contains escaped literals, plain literals,
`.`, the class `[^/]` and the Kleene star, which the token grammar below
captures exactly.  A bracket `[` surviving from the user pattern starts a
character class; such patterns are outside the modelled fragment and are
treated as invalid (the parser rejects them, mirroring the `catch` branch of
the source that returns `false` for patterns that do not compile). -/

/-- Step 1 of `matchesPattern`: `replace(/[.+^$\x7b\x7d()|\\]/g, '\\$&')`. -/
def escapeSpecials : List Char → List Char
  | [] => []
  | c :: rest =>
      if c = '.' || c = '+' || c = '^' || c = '$' || c = '\x7b' || c = '\x7d' ||
         c = '(' || c = ')' || c = '|' || c = '\\'
      then '\\' :: c :: escapeSpecials rest
      else c :: escapeSpecials rest

/-- Step 2 of `matchesPattern`: `replace(/\*\*/g, '.*')`, global left-to-right
non-overlapping replacement. -/
def replStarStar : List Char → List Char
  | '*' :: '*' :: rest => '.' :: '*' :: replStarStar rest
  | c :: rest => c :: replStarStar rest
  | [] => []

/-- Step 3 of `matchesPattern`: `replace(/\*/g, '[^/]*')`. -/
def replStar : List Char → List Char
  | [] => []
  | '*' :: rest => '[' :: '^' :: '/' :: ']' :: '*' :: replStar rest
  | c :: rest => c :: replStar rest

/-- Step 4 of `matchesPattern`: `replace(/\?/g, '[^/]')`. -/
def replQmark : List Char → List Char
  | [] => []
  | '?' :: rest => '[' :: '^' :: '/' :: ']' :: replQmark rest
  | c :: rest => c :: replQmark rest

/-- The whole pattern-to-regex pipeline of `matchesPattern`. -/
def compilePattern (pattern : String) : List Char :=
  replQmark (replStar (replStarStar (escapeSpecials pattern.toList)))

/-- One regex atom of the compiled expression. -/
inductive RTok where
  | lit (c : Char)
  | anyChar
  | nonSlash

/-- Parse the compiled expression into a list of atoms, each with a flag for
a following Kleene star.  Constructs outside the fragment the pipeline can
produce from bracket-free patterns (a bare `[` class, a dangling `\`, an
anchor, a quantifier with nothing to repeat) yield `none`, which
`matchesPattern` maps to `false` like the source's `catch` for patterns
that do not compile. -/
def parseRegex : List Char → Option (List (RTok × Bool))
  | [] => some []
  | '\\' :: [] => none
  | '\\' :: c :: '*' :: rest => (parseRegex rest).map (fun l => (RTok.lit c, true) :: l)
  | '\\' :: c :: rest => (parseRegex rest).map (fun l => (RTok.lit c, false) :: l)
  | '[' :: '^' :: '/' :: ']' :: '*' :: rest =>
      (parseRegex rest).map (fun l => (RTok.nonSlash, true) :: l)
  | '[' :: '^' :: '/' :: ']' :: rest =>
      (parseRegex rest).map (fun l => (RTok.nonSlash, false) :: l)
  | '[' :: _ => none
  | '.' :: '*' :: rest => (parseRegex rest).map (fun l => (RTok.anyChar, true) :: l)
  | '.' :: rest => (parseRegex rest).map (fun l => (RTok.anyChar, false) :: l)
  | '*' :: _ => none
  | '+' :: _ => none
  | '(' :: _ => none
  | ')' :: _ => none
  | '|' :: _ => none
  | '^' :: _ => none
  | '$' :: _ => none
  | '?' :: _ => none
  | c :: '*' :: rest => (parseRegex rest).map (fun l => (RTok.lit c, true) :: l)
  | c :: rest => (parseRegex rest).map (fun l => (RTok.lit c, false) :: l)

/-- Whether an atom matches one character, under the `i` flag (the source
builds `new RegExp(p, 'i')`).  `.` does not match line terminators. -/
def tokMatch : RTok → Char → Bool
  | RTok.lit c, x => c.toLower = x.toLower
  | RTok.anyChar, x => !(x = '\n' || x = '\r')
  | RTok.nonSlash, x => !(x = '/')

/-- Whether the atom list matches some prefix of the character list, with a
fuel argument making the recursion structural: every recursive call strictly
decreases `toks.length + s.length`, so any fuel above that sum is enough and
the `0` branch is never reached from `pmatch`. -/
def pmatchFuel : Nat → List (RTok × Bool) → List Char → Bool
  | 0, _, _ => false
  | _ + 1, [], _ => true
  | _ + 1, (_, false) :: _, [] => false
  | n + 1, (t, false) :: ts, c :: cs => tokMatch t c && pmatchFuel n ts cs
  | n + 1, (t, true) :: ts, s =>
      pmatchFuel n ts s ||
        (match s with
         | [] => false
         | c :: cs => tokMatch t c && pmatchFuel n ((t, true) :: ts) cs)

/-- Whether the atom list matches some prefix of the character list. -/
def pmatch (toks : List (RTok × Bool)) (s : List Char) : Bool :=
  pmatchFuel (toks.length + s.length + 1) toks s

/-- `RegExp.prototype.test`: an unanchored search — the expression matches a
prefix of some suffix of the input. -/
def regexTest (toks : List (RTok × Bool)) (s : List Char) : Bool :=
  s.tails.any (pmatch toks)

/-- `ConfigManager.matchesPattern(filePath, pattern)`. -/
def matchesPattern (filePath pattern : String) : Bool :=
  match parseRegex (compilePattern pattern) with
  | none => false
  | some toks => regexTest toks filePath.toList

/-! ## Exclusion Matcher, specification side

Claim C2 compares `matchesPattern` against the glob semantics the spec
states.  The following definitions follow the spec's words
(`spec.md` section 4.2): `**` matches any sequence of characters including
path separators, `*` any sequence within one segment, `?` exactly one
non-separator character; matching is case-insensitive. -/

/-- A glob token of the spec's restricted syntax. -/
inductive GlobTok where
  | lit (c : Char)
  | starStar
  | star
  | qmark

/-- Tokenise a glob pattern, longest wildcard first. -/
def parseGlob : List Char → List GlobTok
  | [] => []
  | '*' :: '*' :: rest => GlobTok.starStar :: parseGlob rest
  | '*' :: rest => GlobTok.star :: parseGlob rest
  | '?' :: rest => GlobTok.qmark :: parseGlob rest
  | c :: rest => GlobTok.lit c :: parseGlob rest

/-- Case-insensitive glob matching with the spec's wildcard semantics, with a
fuel argument making the recursion structural (every call strictly decreases
`ts.length + s.length`). -/
def globMatchFuel : Nat → List GlobTok → List Char → Bool
  | 0, _, _ => false
  | _ + 1, [], [] => true
  | _ + 1, [], _ :: _ => false
  | _ + 1, GlobTok.lit _ :: _, [] => false
  | n + 1, GlobTok.lit c :: ts, x :: xs => (c.toLower = x.toLower) && globMatchFuel n ts xs
  | _ + 1, GlobTok.qmark :: _, [] => false
  | n + 1, GlobTok.qmark :: ts, x :: xs => !(x = '/') && globMatchFuel n ts xs
  | n + 1, GlobTok.starStar :: ts, s =>
      globMatchFuel n ts s ||
        (match s with
         | [] => false
         | _ :: xs => globMatchFuel n (GlobTok.starStar :: ts) xs)
  | n + 1, GlobTok.star :: ts, s =>
      globMatchFuel n ts s ||
        (match s with
         | [] => false
         | x :: xs => !(x = '/') && globMatchFuel n (GlobTok.star :: ts) xs)

/-- Case-insensitive glob matching with the spec's wildcard semantics. -/
def globMatch (ts : List GlobTok) (s : List Char) : Bool :=
  globMatchFuel (ts.length + s.length + 1) ts s

/-- Glob matching as the spec describes it, on whole strings. -/
def specGlobMatches (filePath pattern : String) : Bool :=
  globMatch (parseGlob pattern.toList) filePath.toList

example : matchesPattern "/tmp/fixture/cache" "**/fixture/**" = true := by decide

example : matchesPattern "a/x/b" "a**b" = false := by decide

example : specGlobMatches "a/x/b" "a**b" = true := by decide

example : matchesPattern "abc/d" "a*c/?" = true := by decide

example : matchesPattern "ABC" "abc" = true := by decide

example : matchesPattern "a/c" "a*c" = false := by decide

/-! ## `ConfigManager.shouldExcludePath` (config-manager.js, lines 141-164) -/

/-- The `excludePatterns` configuration section. -/
structure ExcludePatterns where
  global : List String
  perCategory : List (String × List String)

/-- Association lookup in `excludePatterns.perCategory`. -/
def lookupCategory : List (String × List String) → String → Option (List String)
  | [], _ => none
  | (n, l) :: rest, c => if n = c then some l else lookupCategory rest c

/-- `ConfigManager.shouldExcludePath`: collect the global patterns, then the
category-specific ones, and report whether any of them matches.  A missing
`excludePatterns` section yields `false`. -/
def shouldExcludePath (excludePatterns : Option ExcludePatterns)
    (filePath : String) (category : Option String) : Bool :=
  match excludePatterns with
  | none => false
  | some eps =>
      let pats := eps.global ++
        (match category with
         | none => []
         | some c =>
             match lookupCategory eps.perCategory c with
             | none => []
             | some l => l)
      pats.any (fun pat => matchesPattern filePath pat)

/-! ## Backup/Restore Manager — `SecurityManager` (config-manager.js file 2)

`createBackup` (lines 350-393): when backup is disabled it returns `null`
immediately.  Otherwise it logs INFO, `fs.stat`s the target (a throw is
caught and turned into an ERROR log and a `null` return), copies the subtree
(`fs.cp`), falling back for directories to a manifest of the direct children
(which itself `fs.stat`s every child, so it fails when any child is
inaccessible or the manifest write fails), records a `BackupRecord` and
returns its fresh identifier.

The environment outcomes that are not functions of the tree — whether the
copy to the backup location succeeds and whether the manifest write succeeds
— enter as the boolean parameters `copyOk` and `manifestOk`.  Identifiers
are modelled as the caller-supplied fresh `nextId` (the source uses a
timestamp-random string); log entries are modelled by their level strings,
and backup artifact sizes/timestamps are not modelled. -/

/-- The metadata recorded per backup (`this.backups.set(...)`). -/
structure BackupRecord where
  id : Nat
  originalPath : FSPath
  operation : String

/-- Whether `createManifestBackup` can `fs.stat` every direct child. -/
def childrenAccessible : List (String × FSNode) → Bool
  | [] => true
  | (_, c) :: rest => c.accessibleFlag && childrenAccessible rest

/-- `SecurityManager.createBackup`: returns the optional new identifier, the
updated backup map and the list of log levels emitted. -/
def createBackup (enableBackup : Bool) (fs : FSNode) (target : FSPath)
    (copyOk manifestOk : Bool) (backups : List BackupRecord) (nextId : Nat) :
    Option Nat × List BackupRecord × List String :=
  if enableBackup = false then
    (none, backups, [])
  else
    match lookup fs target with
    | none => (none, backups, ["INFO", "ERROR"])
    | some (FSNode.file _ acc) =>
        if acc then
          if copyOk then
            (some nextId, backups ++ [⟨nextId, target, "delete"⟩], ["INFO", "SUCCESS"])
          else (none, backups, ["INFO", "ERROR"])
        else (none, backups, ["INFO", "ERROR"])
    | some (FSNode.dir acc cs) =>
        if acc then
          if copyOk then
            (some nextId, backups ++ [⟨nextId, target, "delete"⟩], ["INFO", "SUCCESS"])
          else if manifestOk && childrenAccessible cs then
            (some nextId, backups ++ [⟨nextId, target, "delete"⟩], ["INFO", "SUCCESS"])
          else (none, backups, ["INFO", "ERROR"])
        else (none, backups, ["INFO", "ERROR"])

/-! `restoreBackup` (lines 444-485): a missing record makes it `throw`
("Backup not found"); this is the only uncaught path, modelled with
`Except.error`.  Every other outcome is a caught `try` body returning a
boolean.  The content found at the backup path is abstracted by `Blob`:
`missing` (the `fs.readFile` throws — also the case of a directory copied by
`fs.cp`, which `readFile` refuses to read), `manifest` (valid manifest JSON:
directories are re-created, files only produce a WARN log), or `direct`
(some other file content: if it is not valid JSON, `JSON.parse` throws and
the catch returns `false`; otherwise the `fs.cp` restore succeeds or fails
according to `cpOk`). -/

/-- What `fs.readFile` finds at a record's backup path. -/
inductive Blob where
  | missing
  | manifest (entries : List (String × Bool))
  | direct (parseOk : Bool) (cpOk : Bool)

/-- `this.backups.get(backupId)`. -/
def findRecord : List BackupRecord → Nat → Option BackupRecord
  | [], _ => none
  | r :: rest, i => if r.id = i then some r else findRecord rest i

/-- `SecurityManager.restoreBackup`: the success flag plus the emitted log
levels, or the uncaught not-found error. -/
def restoreBackup (backups : List BackupRecord) (blobs : Nat → Blob)
    (backupId : Nat) : Except String (Bool × List String) :=
  match findRecord backups backupId with
  | none => Except.error ("Backup not found: " ++ toString backupId)
  | some _ =>
      match blobs backupId with
      | Blob.missing => Except.ok (false, ["INFO", "ERROR"])
      | Blob.manifest entries =>
          Except.ok (true, "INFO" ::
            (entries.filterMap (fun e => if e.2 then none else some "WARN")) ++ ["SUCCESS"])
      | Blob.direct parseOk cpOk =>
          if parseOk = false then Except.ok (false, ["INFO", "ERROR"])
          else if cpOk then Except.ok (true, ["INFO", "SUCCESS"])
          else Except.ok (false, ["INFO", "ERROR"])

/-- Whether an `Except` result is a normal (non-thrown) return. -/
def isOkResult : Except String (Bool × List String) → Bool
  | Except.ok _ => true
  | Except.error _ => false

/-! ## Analytics Aggregator — `AnalyticsManager.calculateTrends`

`src/unnamed/part_001`, lines 285-309.  A session enters the computation
only through `session.summary.spaceRecovered`, so sessions are modelled as
that number.  JavaScript `Array.prototype.slice` with possibly negative
indices is embedded as `jsSlice`; the two averages are exact rationals
(the source's floating-point division never matters for the claims, which
only compare averages of equal-length windows). -/

/-- Clamp one `slice` index the way JavaScript does. -/
def jsSliceIdx (len : Nat) (i : Int) : Nat :=
  if i < 0 then ((len : Int) + i).toNat else min i.toNat len

/-- `Array.prototype.slice(a, b)` for integer arguments. -/
def jsSlice (l : List Nat) (a b : Int) : List Nat :=
  (l.take (jsSliceIdx l.length b)).drop (jsSliceIdx l.length a)

/-- `sessions.slice(-7)` — the last 7 sessions. -/
def trendRecent (sessions : List Nat) : List Nat :=
  jsSlice sessions (-7) (sessions.length : Int)

/-- `sessions.slice(-14, -7)` — the preceding 7 sessions. -/
def trendPrevious (sessions : List Nat) : List Nat :=
  jsSlice sessions (-14) (-7)

/-- Mean of a list of session sizes, as an exact rational. -/
def listAvg (l : List Nat) : ℚ :=
  (l.sum : ℚ) / (l.length : ℚ)

/-- The object returned by `calculateTrends`: the `trend` string, and the
numeric fields that are absent on the insufficient-data result. -/
structure TrendReport where
  trend : String
  recentAverage : Option ℚ
  previousAverage : Option ℚ
  changePercent : Option ℚ

/-- The `\x7btrend: 'insufficient_data'\x7d` result. -/
def insufficientReport : TrendReport :=
  ⟨"insufficient_data", none, none, none⟩

/-- `AnalyticsManager.calculateTrends`. -/
def calculateTrends (sessions : List Nat) : TrendReport :=
  if sessions.length < 2 then insufficientReport
  else if (trendRecent sessions).length = 0 ∨ (trendPrevious sessions).length = 0 then
    insufficientReport
  else
    let recentAvg := listAvg (trendRecent sessions)
    let previousAvg := listAvg (trendPrevious sessions)
    ⟨if recentAvg > previousAvg then "increasing"
      else if recentAvg < previousAvg then "decreasing" else "stable",
     some recentAvg, some previousAvg,
     some (if previousAvg > 0 then (recentAvg - previousAvg) / previousAvg * 100 else 0)⟩

example : (calculateTrends []).trend = "insufficient_data" := by decide
example : (calculateTrends [5]).trend = "insufficient_data" := by decide
example : (calculateTrends [1, 2, 3, 4, 5, 6, 7]).trend = "insufficient_data" := by decide
example : trendRecent [1, 2, 3, 4, 5, 6, 7, 8] = [2, 3, 4, 5, 6, 7, 8] := by decide
example : trendPrevious [1, 2, 3, 4, 5, 6, 7, 8] = [1] := by decide

/-! ## Claims -/

/-- A directory whose only file sits one level down: `.../sub/data` of 10
bytes.  The concrete input refuting claim C4. -/
def nestedFS : FSNode :=
  FSNode.dir true [("sub", FSNode.dir true [("data", FSNode.file 10 true)])]

/-- Claim C4 (refuted — code bug): the size-measurement routine is claimed to
return the sum of the file sizes (each file counted once) when nothing is
inaccessible, and at most that sum otherwise.  On a directory containing one
subdirectory with a single 10-byte file, `getFolderSize` returns 20 bytes and
2 files — the shared closure accumulators are returned by the recursive call
and then added again by the caller — exceeding the true sum, so neither the
equality nor the upper bound holds. -/
theorem getFolderSize_double_counts :
    getFolderSize nestedFS [] = (20, 2) ∧
    totalFileSize nestedFS = 10 ∧ totalFileCount nestedFS = 1 :=
  ⟨by decide, by decide, by decide⟩

/-- Claim C5 (confirmed): measuring a non-existent path returns
`(size, count) = (0, 0)` and, the embedding being a total function whose
source catches every error, never raises. -/
theorem getFolderSize_missing_path (fs : FSNode) (p : FSPath)
    (h : lookup fs p = none) : getFolderSize fs p = (0, 0) := by
  unfold getFolderSize
  rw [h]

/-- Concrete instantiation of `getFolderSize_missing_path`. -/
theorem getFolderSize_missing_path_witness :
    lookup (FSNode.dir true []) ["missing"] = none ∧
    getFolderSize (FSNode.dir true []) ["missing"] = (0, 0) :=
  ⟨rfl, getFolderSize_missing_path (FSNode.dir true []) ["missing"] rfl⟩

/-- Claim C9 (confirmed): on an existing target whose measured total size is
zero, `cleanPath` returns the zero result at once — the filesystem is
untouched, no backup is requested and the statistics counters are exactly
the ones passed in. -/
theorem cleanPath_zero_size_noop (opts : CleanOptions) (fs : FSNode)
    (stats : Stats) (p : FSPath) (hex : (lookup fs p).isSome = true)
    (hz : (getFolderSize fs p).1 = 0) :
    cleanPath opts fs stats p = ⟨fs, stats, (0, 0), []⟩ := by
  unfold cleanPath
  cases hv : validateOperation fs p with
  | false => simp
  | true => simp [hv, hz]

/-- A directory holding three zero-byte files: the measured size is 0 even
though three files are present. -/
def zeroFS : FSNode :=
  FSNode.dir true [("d", FSNode.dir true
    [("a", FSNode.file 0 true), ("b", FSNode.file 0 true), ("c", FSNode.file 0 true)])]

/-- Concrete instantiation of `cleanPath_zero_size_noop` on a directory of
zero-byte files. -/
theorem cleanPath_zero_size_noop_witness :
    (lookup zeroFS ["d"]).isSome = true ∧
    getFolderSize zeroFS ["d"] = (0, 3) ∧
    cleanPath ⟨false, true⟩ zeroFS ⟨0, 0, 0⟩ ["d"] = ⟨zeroFS, ⟨0, 0, 0⟩, (0, 0), []⟩ :=
  ⟨rfl, rfl, cleanPath_zero_size_noop ⟨false, true⟩ zeroFS ⟨0, 0, 0⟩ ["d"] rfl rfl⟩

/-- Claim C3 (confirmed): on an existing target of non-zero measured size, a
dry-run `cleanPath` leaves the filesystem exactly as it was, while producing
the same statistics counters and the same reported result as the non-preview
run from the same state would. -/
theorem cleanPath_dryRun_frame (b : Bool) (fs : FSNode) (stats : Stats)
    (p : FSPath) (hex : (lookup fs p).isSome = true)
    (hne : (getFolderSize fs p).1 ≠ 0) :
    (cleanPath ⟨true, b⟩ fs stats p).fs = fs ∧
    (cleanPath ⟨true, b⟩ fs stats p).stats = (cleanPath ⟨false, b⟩ fs stats p).stats ∧
    (cleanPath ⟨true, b⟩ fs stats p).result = (cleanPath ⟨false, b⟩ fs stats p).result := by
  unfold cleanPath
  cases hv : validateOperation fs p with
  | false => simp
  | true =>
    have h3 : (lookup fs p).isNone = false := by
      cases h : lookup fs p <;> simp_all
    simp [hv, hne, h3]

/-- A directory holding one 150-byte file, the dry-run witness target. -/
def cacheFS : FSNode :=
  FSNode.dir true [("cache", FSNode.dir true [("a", FSNode.file 150 true)])]

/-- Concrete instantiation of `cleanPath_dryRun_frame`: a directory with a
150-byte file is reported but not deleted in dry-run mode. -/
theorem cleanPath_dryRun_frame_witness :
    (cleanPath ⟨true, true⟩ cacheFS ⟨0, 0, 0⟩ ["cache"]).fs = cacheFS ∧
    (cleanPath ⟨true, true⟩ cacheFS ⟨0, 0, 0⟩ ["cache"]).stats =
      (cleanPath ⟨false, true⟩ cacheFS ⟨0, 0, 0⟩ ["cache"]).stats ∧
    (cleanPath ⟨true, true⟩ cacheFS ⟨0, 0, 0⟩ ["cache"]).result =
      (cleanPath ⟨false, true⟩ cacheFS ⟨0, 0, 0⟩ ["cache"]).result :=
  cleanPath_dryRun_frame true cacheFS ⟨0, 0, 0⟩ ["cache"] rfl (by decide)

/-- The exclude configuration of the spec's scenario: one global pattern. -/
def fixtureExcludes : ExcludePatterns := ⟨["**/fixture/**"], []⟩

/-- A tree holding `/tmp/fixture/cache/data.bin` of 150 bytes. -/
def fixtureFS : FSNode :=
  FSNode.dir true [("tmp", FSNode.dir true [("fixture", FSNode.dir true
    [("cache", FSNode.dir true [("data.bin", FSNode.file 150 true)])])])]

/-- Claim C1 (refuted — code bug): a target matching a configured global
exclude pattern is claimed never to reach the deletion step and to contribute
zero to the run statistics.  But neither `run` nor `cleanPath` ever consults
`ConfigManager.shouldExcludePath` — the matcher has no caller in the cleanup
flow — so the target `/tmp/fixture/cache`, which the configured matcher
itself reports as excluded, is still deleted by the run loop (its file is
gone afterwards) and contributes its full 150 bytes to `totalCleaned`. -/
theorem excluded_path_still_deleted :
    shouldExcludePath (some fixtureExcludes) "/tmp/fixture/cache" none = true ∧
    lookup fixtureFS ["tmp", "fixture", "cache", "data.bin"]
      = some (FSNode.file 150 true) ∧
    (runTargets ⟨false, false⟩ fixtureFS ⟨0, 0, 0⟩
        [["tmp", "fixture", "cache"]]).2.totalCleaned = 150 ∧
    lookup (runTargets ⟨false, false⟩ fixtureFS ⟨0, 0, 0⟩
        [["tmp", "fixture", "cache"]]).1 ["tmp", "fixture", "cache", "data.bin"]
      = none :=
  ⟨by decide, rfl, by decide, rfl⟩

/-- Claim C2 (refuted — code bug): the matcher is claimed to let `**` match
any sequence of characters including path separators.  The replacement chain
first rewrites `**` to `.*` and then rewrites every `*` — including the one
it just inserted — to `[^/]*`, so `**` is compiled to `.[^/]*`: one arbitrary
character followed by non-separators only.  On pattern `a**b` and path
`a/x/b` the spec-side glob semantics match but `matchesPattern` does not.
The `*` and `?` conversions and the case-insensitive flag do behave as
claimed; only the `**` clause fails. -/
theorem doubleStar_stops_at_separator :
    specGlobMatches "a/x/b" "a**b" = true ∧
    matchesPattern "a/x/b" "a**b" = false ∧
    compilePattern "a**b" = ['a', '.', '[', '^', '/', ']', '*', 'b'] :=
  ⟨by decide, by decide, by decide⟩

/-- Claim C6 (confirmed): `createBackup` returns no identifier and touches
nothing when backup is disabled, and whenever it fails to produce an
identifier it leaves the backup map unchanged and (when enabled) has logged
an ERROR entry — it never throws, being a total function here exactly
because every failure path in the source is caught. -/
theorem createBackup_failure_policy (en : Bool) (fs : FSNode) (target : FSPath)
    (copyOk manifestOk : Bool) (backups : List BackupRecord) (nextId : Nat) :
    (en = false →
      createBackup en fs target copyOk manifestOk backups nextId = (none, backups, [])) ∧
    ((createBackup en fs target copyOk manifestOk backups nextId).1 = none →
      (createBackup en fs target copyOk manifestOk backups nextId).2.1 = backups) ∧
    (en = true →
      (createBackup en fs target copyOk manifestOk backups nextId).1 = none →
      "ERROR" ∈ (createBackup en fs target copyOk manifestOk backups nextId).2.2) := by
  unfold createBackup
  cases en with
  | false => simp
  | true =>
    cases hl : lookup fs target with
    | none => simp
    | some node =>
      cases node with
      | file sz acc => cases acc <;> cases copyOk <;> simp
      | dir acc cs =>
        cases acc with
        | false => simp
        | true =>
          cases copyOk with
          | true => simp
          | false =>
            cases manifestOk with
            | false => simp
            | true =>
              cases hca : childrenAccessible cs with
              | false => simp [hca]
              | true => simp [hca]

/-- Concrete instantiation of `createBackup_failure_policy`: disabled backup,
and a failing file copy. -/
theorem createBackup_failure_policy_witness :
    createBackup false (FSNode.dir true []) [] false false [] 1 = (none, [], []) ∧
    (createBackup true (FSNode.file 5 true) [] false false [] 1).1 = none ∧
    "ERROR" ∈ (createBackup true (FSNode.file 5 true) [] false false [] 1).2.2 :=
  ⟨(createBackup_failure_policy false (FSNode.dir true []) [] false false [] 1).1 rfl,
   rfl,
   (createBackup_failure_policy true (FSNode.file 5 true) [] false false [] 1).2.2 rfl rfl⟩

/-- Claim C8 (confirmed): `restoreBackup` throws its not-found error exactly
when no record exists for the identifier; for every recorded backup it comes
back normally with a success/failure boolean, and a restore whose backup file
is missing yields `false` together with an ERROR log entry instead of
raising. -/
theorem restoreBackup_policy (backups : List BackupRecord) (blobs : Nat → Blob)
    (backupId : Nat) :
    (findRecord backups backupId = none →
      restoreBackup backups blobs backupId =
        Except.error ("Backup not found: " ++ toString backupId)) ∧
    (findRecord backups backupId ≠ none →
      isOkResult (restoreBackup backups blobs backupId) = true) ∧
    (findRecord backups backupId ≠ none → blobs backupId = Blob.missing →
      restoreBackup backups blobs backupId = Except.ok (false, ["INFO", "ERROR"])) := by
  unfold restoreBackup
  cases hf : findRecord backups backupId with
  | none => simp
  | some r =>
    cases hb : blobs backupId with
    | missing => simp [isOkResult]
    | manifest entries => simp [isOkResult]
    | direct parseOk cpOk => cases parseOk <;> cases cpOk <;> simp [isOkResult]

/-- The backup record used by the `restoreBackup_policy` witness. -/
def witnessRecord : BackupRecord := ⟨1, ["tmp"], "delete"⟩

/-- Concrete instantiation of `restoreBackup_policy`: an unknown identifier
throws, a recorded direct-copy restore returns a boolean, and a missing
backup file returns `false` with an ERROR log. -/
theorem restoreBackup_policy_witness :
    restoreBackup [] (fun _ => Blob.missing) 7 =
      Except.error ("Backup not found: " ++ toString 7) ∧
    isOkResult (restoreBackup [witnessRecord] (fun _ => Blob.direct true true) 1) = true ∧
    restoreBackup [witnessRecord] (fun _ => Blob.missing) 1 =
      Except.ok (false, ["INFO", "ERROR"]) :=
  ⟨(restoreBackup_policy [] (fun _ => Blob.missing) 7).1 rfl,
   (restoreBackup_policy [witnessRecord] (fun _ => Blob.direct true true) 1).2.1
     (fun h => Option.noConfusion h),
   (restoreBackup_policy [witnessRecord] (fun _ => Blob.missing) 1).2.2
     (fun h => Option.noConfusion h) rfl⟩

/-- Length of the most-recent window `sessions.slice(-7)`. -/
theorem trendRecent_length (l : List Nat) :
    (trendRecent l).length = min 7 l.length := by
  unfold trendRecent jsSlice jsSliceIdx
  split_ifs <;> simp [List.length_drop, List.length_take] <;> omega

/-- Length of the preceding window `sessions.slice(-14, -7)`. -/
theorem trendPrevious_length (l : List Nat) :
    (trendPrevious l).length = (l.length - 7) - (l.length - 14) := by
  unfold trendPrevious jsSlice jsSliceIdx
  split_ifs <;> simp [List.length_drop, List.length_take] <;> omega

/-- Claim C7 (confirmed): with fewer than 2 sessions the trend is the
explicit insufficient-data result, and on any 14 sessions with strictly
increasing recovered space the mean of the last 7 exceeds the mean of the
first 7, so the reported trend is "increasing". -/
theorem calculateTrends_trend_cases :
    (∀ sessions : List Nat, sessions.length < 2 →
      (calculateTrends sessions).trend = "insufficient_data") ∧
    (∀ a b c d e f g h i j k l m n : Nat,
      a < b → b < c → c < d → d < e → e < f → f < g → g < h → h < i → i < j →
      j < k → k < l → l < m → m < n →
      (calculateTrends [a, b, c, d, e, f, g, h, i, j, k, l, m, n]).trend
        = "increasing") := by
  constructor
  · intro sessions hlen
    unfold calculateTrends
    rw [if_pos hlen]
    rfl
  · intro a b c d e f g h i j k l m n h1 h2 h3 h4 h5 h6 h7 h8 h9 h10 h11 h12 h13
    have hrec : trendRecent [a, b, c, d, e, f, g, h, i, j, k, l, m, n]
        = [h, i, j, k, l, m, n] := rfl
    have hprev : trendPrevious [a, b, c, d, e, f, g, h, i, j, k, l, m, n]
        = [a, b, c, d, e, f, g] := rfl
    have hlt : listAvg (trendPrevious [a, b, c, d, e, f, g, h, i, j, k, l, m, n]) <
        listAvg (trendRecent [a, b, c, d, e, f, g, h, i, j, k, l, m, n]) := by
      rw [hrec, hprev]
      unfold listAvg
      simp only [List.sum_cons, List.sum_nil, List.length_cons, List.length_nil]
      rw [div_lt_div_iff₀ (by norm_num) (by norm_num)]
      norm_cast
      omega
    unfold calculateTrends
    rw [if_neg (by simp), if_neg (by rw [hrec, hprev]; simp)]
    simp only []
    rw [if_pos hlt]

/-- Concrete instantiation of `calculateTrends_trend_cases`: one session is
insufficient, and the strictly increasing history 0..13 trends upward. -/
theorem calculateTrends_trend_cases_witness :
    (calculateTrends [5]).trend = "insufficient_data" ∧
    (calculateTrends [0, 1, 2, 3, 4, 5, 6, 7, 8, 9, 10, 11, 12, 13]).trend
      = "increasing" :=
  ⟨calculateTrends_trend_cases.1 [5] (by decide),
   calculateTrends_trend_cases.2 0 1 2 3 4 5 6 7 8 9 10 11 12 13
     (by decide) (by decide) (by decide) (by decide) (by decide) (by decide)
     (by decide) (by decide) (by decide) (by decide) (by decide) (by decide)
     (by decide)⟩

/-- Claim C10 (confirmed): the trend is the insufficient-data result exactly
when the history holds at most 7 sessions — the preceding-7 window
`slice(-14, -7)` is empty whenever at most 7 sessions exist — and a numeric
trend is produced precisely from 8 sessions up. -/
theorem calculateTrends_insufficient_iff (sessions : List Nat) :
    (calculateTrends sessions).trend = "insufficient_data" ↔
      sessions.length ≤ 7 := by
  by_cases h2 : sessions.length < 2
  · unfold calculateTrends
    rw [if_pos h2]
    exact iff_of_true rfl (by omega)
  · by_cases h7 : sessions.length ≤ 7
    · unfold calculateTrends
      rw [if_neg h2, if_pos]
      · exact iff_of_true rfl h7
      · right
        rw [trendPrevious_length]
        omega
    · unfold calculateTrends
      rw [if_neg h2, if_neg]
      · simp only []
        split_ifs <;> exact iff_of_false (by decide) h7
      · rw [not_or, trendRecent_length, trendPrevious_length]
        constructor <;> omega
